import Mathlib

/-!
# Verification of the bottastic bot dispatch runtime

A shallow embedding of `src/bottastic/bottastic.py` (the broadcast-aware
revision of the runtime, which the specification adopts) together with
theorems settling the specification claims.

Modelling conventions:
* Python dictionaries that may lack keys become structures with `Option`
  fields; a `KeyError` on subscript lookup becomes `Except.error (.keyError k)`.
* Python object identity (`is`, default `==` for classes without `__eq__`,
  `list.remove`) is modelled by explicit numeric object ids.
* Exceptions are modelled with `Except PyErr`; a function that cannot raise
  returns a plain value.
* Side effects that matter to the claims (transport sends, interface close,
  the coroutines scheduled onto a bot's event loop) are returned as values;
  `print` lines are not recorded, but the dictionary lookups their f-strings
  perform (which can raise) are.
-/

set_option autoImplicit false

namespace Bottastic

/-- `meshtastic.BROADCAST_NUM`: the broadcast sentinel address `0xFFFFFFFF`. -/
def BROADCAST_NUM : Nat := 4294967295

/-- Python-level exceptions that the embedded code can raise. -/
inductive PyErr where
  /-- `KeyError` from a dictionary subscript, recording the missing key. -/
  | keyError (k : String)
  /-- `ValueError`, as raised by `MeshtasticNode.node_info`. -/
  | valueError
  /-- `NoEncryptionKey`, the library's own exception class. -/
  | noEncryptionKey
  /-- `Exception("Loop not set up")` from `_handle_on_connection`. -/
  | loopNotSetUp
deriving Repr, DecidableEq

/-- The `user` sub-dictionary of a node directory entry.  Each field models a
dictionary key that may be absent. -/
structure UserDict where
  id : Option String
  publicKey : Option String
  shortName : Option String
  longName : Option String
deriving Repr, DecidableEq

/-- One entry of `interface.nodesByNum`; the `"user"` key may be absent. -/
structure NodeDict where
  user : Option UserDict
deriving Repr, DecidableEq

/-- The slice of a `MeshInterface` the runtime reads: the live node directory.
`nodesByNum` is `none` when the attribute is `None`; `some dir` is a dict keyed
by node number. -/
structure Interface where
  nodesByNum : Option (List (Nat × NodeDict))
deriving Repr, DecidableEq

/-- Python truthiness of `interface.nodesByNum`: `None` and the empty dict are
falsy. -/
def Interface.nodesTruthy (iface : Interface) : Bool :=
  match iface.nodesByNum with
  | none => false
  | some d => !d.isEmpty

/-- Dictionary subscript `d[k]`: `KeyError` when the key is absent. -/
def dictGet (d : List (Nat × NodeDict)) (k : Nat) : Except PyErr NodeDict :=
  match d.find? (fun e => e.1 == k) with
  | some e => .ok e.2
  | none => .error (.keyError (toString k))

/-- `MeshtasticNode.node_info`: returns `nodesByNum[num]` when the directory is
truthy, otherwise `raise ValueError`. -/
def node_info (iface : Interface) (num : Nat) : Except PyErr NodeDict :=
  if iface.nodesTruthy then
    match iface.nodesByNum with
    | some d => dictGet d num
    | none => .error .valueError
  else
    .error .valueError

/-- Subscript `node_info["user"]`. -/
def userOf (nd : NodeDict) : Except PyErr UserDict :=
  match nd.user with
  | some u => .ok u
  | none => .error (.keyError "user")

/-- Lookup of one key of `node_info["user"]`, shared shape of the four
attribute properties: propagate errors from `node_info` and the `"user"`
subscript, then subscript the named key. -/
def userField (iface : Interface) (num : Nat) (k : String)
    (get : UserDict → Option String) : Except PyErr String :=
  match node_info iface num with
  | .error e => .error e
  | .ok nd =>
    match userOf nd with
    | .error e => .error e
    | .ok u =>
      match get u with
      | some s => .ok s
      | none => .error (.keyError k)

/-- `MeshtasticNode.id`: `node_info["user"]["id"]`. -/
def MeshtasticNode.idLookup (iface : Interface) (num : Nat) : Except PyErr String :=
  userField iface num "id" (fun u => u.id)

/-- `MeshtasticNode.short_name`: `node_info["user"]["shortName"]`. -/
def MeshtasticNode.shortName (iface : Interface) (num : Nat) : Except PyErr String :=
  userField iface num "shortName" (fun u => u.shortName)

/-- `MeshtasticNode.long_name`: `node_info["user"]["longName"]`. -/
def MeshtasticNode.longName (iface : Interface) (num : Nat) : Except PyErr String :=
  userField iface num "longName" (fun u => u.longName)

/-- Value of one base64 alphabet character, `none` for a non-alphabet
character. -/
def b64Val (c : Char) : Option Nat :=
  if 'A' ≤ c ∧ c ≤ 'Z' then some (c.toNat - 65)
  else if 'a' ≤ c ∧ c ≤ 'z' then some (c.toNat - 71)
  else if '0' ≤ c ∧ c ≤ '9' then some (c.toNat + 4)
  else if c = '+' then some 62
  else if c = '/' then some 63
  else none

/-- Reassemble 6-bit groups into bytes (the last partial group per base64
padding). -/
def bytesOfSextets : List Nat → List Nat
  | a :: b :: c :: d :: rest =>
      (a * 4 + b / 16) :: ((b % 16) * 16 + c / 4) :: ((c % 4) * 64 + d) ::
        bytesOfSextets rest
  | [a, b] => [a * 4 + b / 16]
  | [a, b, c] => [a * 4 + b / 16, (b % 16) * 16 + c / 4]
  | _ => []

/-- `base64.b64decode` on well-padded input: non-alphabet characters (such as
the `=` padding) are discarded and the 6-bit values are packed into bytes.
Padding validation is not modelled; no claim concerns malformed base64. -/
def b64decode (s : String) : List Nat :=
  bytesOfSextets (s.toList.filterMap b64Val)

/-- `MeshtasticNode.key`: `base64.b64decode(node_info["user"]["publicKey"])`.
Note that on success this is always a bytes value, never `None`. -/
def MeshtasticNode.keyLookup (iface : Interface) (num : Nat) :
    Except PyErr (List Nat) :=
  match userField iface num "publicKey" (fun u => u.publicKey) with
  | .error e => .error e
  | .ok s => .ok (b64decode s)

/-- The dictionary returned by `interface.getMyNodeInfo()`, of which the
runtime reads `["num"]`. -/
structure MyNode where
  num : Nat
deriving Repr, DecidableEq

/-- A received packet dictionary.  `fromId` is a key the meshtastic decoder
usually adds but which the runtime reads unguarded; `decoded` models the
optional `"decoded"` sub-dictionary whose `"text"` key may in turn be
absent. -/
structure DecodedPayload where
  text : Option String
deriving Repr, DecidableEq

structure Packet where
  toAddr : Nat
  fromAddr : Nat
  fromId : Option String
  decoded : Option DecodedPayload
deriving Repr, DecidableEq

/-- The text payload guarded by
`"decoded" not in packet or "text" not in packet["decoded"]`. -/
def Packet.decodedText (p : Packet) : Option String :=
  match p.decoded with
  | none => none
  | some d => d.text

/-- One `Bottastic` instance.  `id` models Python object identity, `iface` the
identity of the interface object (`is` comparisons).  `loop` is whether
`self.loop` has been set by `event_loop`; `my_node` / `my_user` are the cached
self-identity; `onInitializedDone` is ghost state marking that the
`on_initialized` hook has run to completion. -/
structure Bot where
  id : Nat
  iface : Nat
  echo_sent : Bool
  echo_received : Bool
  loop : Bool
  my_node : Option MyNode
  my_user : Option Unit
  onInitializedDone : Bool
deriving Repr, DecidableEq

/-- A handler coroutine scheduled onto the bot's event loop by
`_handle_on_receive`. -/
inductive Dispatch where
  /-- `handle_message(from_node=MeshtasticNode(self, packet["from"]), message=text)`. -/
  | broadcast (fromNum : Nat) (text : String)
  /-- `handle_direct_message(from_node=MeshtasticNode(self, packet["from"]), message=text)`. -/
  | direct (fromNum : Nat) (text : String)
deriving Repr, DecidableEq

/-- The lookup `packet["fromId"]` performed by the receive-echo f-strings. -/
def echoFromId (p : Packet) : Except PyErr String :=
  match p.fromId with
  | some s => .ok s
  | none => .error (.keyError "fromId")

/-- `Bottastic._handle_on_receive`.  Returns the handler scheduled onto the
bot's loop (if any); an uncaught exception from the echo lookup propagates. -/
def handleOnReceive (b : Bot) (p : Packet) : Except PyErr (Option Dispatch) :=
  match b.loop, b.my_node with
  | false, _ => .ok none
  | true, none => .ok none
  | true, some mn =>
    match p.decodedText with
    | none => .ok none
    | some text =>
      if p.toAddr = BROADCAST_NUM then
        match (if b.echo_received then echoFromId p else .ok "") with
        | .error e => .error e
        | .ok _ => .ok (some (.broadcast p.fromAddr text))
      else if p.toAddr ≠ mn.num then
        .ok none
      else
        match (if b.echo_received then echoFromId p else .ok "") with
        | .error e => .error e
        | .ok _ => .ok (some (.direct p.fromAddr text))

/-! ## The dispatch registry: `_registered_bots`, `_connected_bots`,
`on_receive`, `on_connection`, `event_loop`, `close` -/

/-- The process-wide registry: `_registered_bots` and `_connected_bots` (the
latter holds interface identities of connections that signalled readiness
before any scheduler-ready bot could take them). -/
structure Registry where
  registered : List Bot
  pending : List Nat
deriving Repr, DecidableEq

/-- Module-level `on_receive`: iterates over `_registered_bots` and calls
`_handle_on_receive` on every bot whose interface is the event's interface
(the loop has no early exit).  Returns the scheduled handlers as
`(bot id, dispatch)` pairs, in registration order; an exception raised by any
`_handle_on_receive` aborts the loop and propagates to the pubsub caller. -/
def onReceive (bots : List Bot) (iface : Nat) (p : Packet) :
    Except PyErr (List (Nat × Dispatch)) :=
  match bots with
  | [] => .ok []
  | b :: rest =>
    if b.iface = iface then
      match handleOnReceive b p with
      | .error e => .error e
      | .ok d =>
        match onReceive rest iface p with
        | .error e => .error e
        | .ok ds => .ok ((d.map (fun x => (b.id, x))).toList ++ ds)
    else
      onReceive rest iface p

/-- `Bottastic._handle_on_connection`: raises when `self.loop` is unset,
otherwise schedules `_on_connect` onto the loop. -/
def handleOnConnection (b : Bot) : Except PyErr Unit :=
  if b.loop then .ok () else .error .loopNotSetUp

/-- Module-level `on_connection`: scans `_registered_bots` for the first bot
whose interface matches and whose loop is set; if found, calls its
`_handle_on_connection` and returns, otherwise appends the interface to
`_connected_bots`.  Returns the updated registry and the bot (if any) whose
connect sequence was triggered. -/
def onConnection (r : Registry) (iface : Nat) :
    Except PyErr (Registry × Option Bot) :=
  match r.registered.find? (fun b => b.iface == iface && b.loop) with
  | some b =>
      match handleOnConnection b with
      | .error e => .error e
      | .ok _ => .ok (r, some b)
  | none => .ok ({ r with pending := r.pending ++ [iface] }, none)

/-- Set `self.loop` on the registry's copy of the bot with object id `bid`
(Python mutates the shared object; the registry list holds references). -/
def setLoop (bots : List Bot) (bid : Nat) : List Bot :=
  bots.map fun b => if b.id = bid then { b with loop := true } else b

/-- The head of `Bottastic.event_loop`: record the running loop, then, if this
bot's interface is in `_connected_bots`, remove it (Python `list.remove`,
first occurrence) and run the connect sequence.  Returns the updated registry
and whether `_on_connect` ran. -/
def eventLoopStart (r : Registry) (b : Bot) : Registry × Bool :=
  let registered := setLoop r.registered b.id
  if b.iface ∈ r.pending then
    (⟨registered, r.pending.erase b.iface⟩, true)
  else
    (⟨registered, r.pending⟩, false)

/-- Python `list.remove` on `_registered_bots`: removes the first element
identical (object identity) to the bot, `ValueError` if none is. -/
def removeBot (l : List Bot) (bid : Nat) : Except PyErr (List Bot) :=
  match l with
  | [] => .error .valueError
  | b :: rest =>
    if b.id = bid then .ok rest
    else
      match removeBot rest bid with
      | .error e => .error e
      | .ok l' => .ok (b :: l')

/-- Observable side effects of `Bottastic.close`. -/
inductive CloseEffect where
  | interfaceClosed (iface : Nat)
deriving Repr, DecidableEq

/-- `Bottastic.close`: `self.interface.close()` then
`_registered_bots.remove(self)`.  `_connected_bots` is not touched. -/
def close (r : Registry) (b : Bot) : List CloseEffect × Except PyErr Registry :=
  ([.interfaceClosed b.iface],
    match removeBot r.registered b.id with
    | .ok l => .ok ⟨l, r.pending⟩
    | .error e => .error e)

/-! ## The connect sequence `_on_connect` -/

/-- The three awaited operations of `_on_connect`, in program order. -/
inductive ConnectStep where
  /-- `await call_async(self.interface.getMyNodeInfo)` (through the Bridge). -/
  | bridgeGetMyNodeInfo
  /-- `await call_async(self.interface.getMyUser)` (through the Bridge). -/
  | bridgeGetMyUser
  /-- `await self.on_initialized()`. -/
  | invokeOnInitialized
deriving Repr, DecidableEq

/-- `Bottastic._on_connect` as a trace of (step, state after the step) pairs,
where `mn` is the value `getMyNodeInfo` returns.  The receive callback runs on
the pubsub thread and can observe the bot in any of these intermediate
states while the sequence is still in progress. -/
def onConnectRun (b : Bot) (mn : MyNode) : List (ConnectStep × Bot) :=
  [ (.bridgeGetMyNodeInfo, { b with my_node := some mn }),
    (.bridgeGetMyUser, { b with my_node := some mn, my_user := some () }),
    (.invokeOnInitialized,
      { b with my_node := some mn, my_user := some (),
               onInitializedDone := true }) ]

/-- The intermediate states of `_on_connect` at which the hook has not yet
completed: after `my_node` is assigned, and after `my_user` is assigned but
before `on_initialized` returns. -/
def onConnectMidStates (b : Bot) (mn : MyNode) : List Bot :=
  [ { b with my_node := some mn },
    { b with my_node := some mn, my_user := some () } ]

/-! ## `MeshtasticNode.send_message` -/

/-- One call to `interface.sendData`, with the keyword arguments the runtime
passes. -/
structure SendCall where
  payload : String
  dest : Option Nat
  wantAck : Bool
  wantResponse : Bool
  hasOnResponse : Bool
  pkiEncrypted : Bool
  publicKey : Option (List Nat)
deriving Repr, DecidableEq

/-- `MeshtasticNode.send_message`: resolve `self.key` (which raises when the
directory, the entry, the `user` dict or its `publicKey` is missing), raise
`NoEncryptionKey` when the key is falsy (empty bytes) and encryption is
required, then perform one `sendData` with `pkiEncrypted=key is not None` —
and `key`, being a bytes value, is never `None`, so the flag is always
`True`.  Returns the transport sends performed. -/
def node_send_message (iface : Interface) (num : Nat) (text : String)
    (require_encryption : Bool) (want_response : Bool) :
    Except PyErr (List SendCall) :=
  match MeshtasticNode.keyLookup iface num with
  | .error e => .error e
  | .ok key =>
    if key.isEmpty && require_encryption then .error .noEncryptionKey
    else
      .ok [{ payload := text
             dest := some num
             wantAck := want_response
             wantResponse := want_response
             hasOnResponse := want_response
             pkiEncrypted := true
             publicKey := some key }]

/-! ## Python object construction for `MeshtasticNode` -/

/-- A `MeshtasticNode` object: `objId` models the object's identity (its
address), `bottastic` the identity of the owning bot object, `num` the node
number.  The class defines no `__eq__`, so Python `==` falls back to object
identity. -/
structure PyMeshtasticNode where
  objId : Nat
  bottastic : Nat
  num : Nat
deriving Repr, DecidableEq

/-- Python `==` on `MeshtasticNode` objects: default object identity. -/
def pyEq (a b : PyMeshtasticNode) : Bool :=
  a.objId == b.objId

/-! ## Spec-side definitions used to state amended claims -/

/-- Modelled from the spec's words for the amended C8: the packet is forwarded
to every registered instance bound to the connection, in registration order;
each forwards through its own packet filter. -/
def allMatchedDispatches (bots : List Bot) (iface : Nat) (p : Packet) :
    List (Nat × Dispatch) :=
  match bots with
  | [] => []
  | b :: rest =>
    if b.iface = iface then
      (match handleOnReceive b p with
       | .ok (some d) => [(b.id, d)]
       | _ => []) ++ allMatchedDispatches rest iface p
    else
      allMatchedDispatches rest iface p

/-- Number of `_on_connect` executions triggered when a single
connection-established event arrives before the bot's scheduler starts:
the event is processed by `on_connection`, then the scheduler starts. -/
def connectRunsEventFirst (r : Registry) (b : Bot) : Except PyErr Nat :=
  match onConnection r b.iface with
  | .error e => .error e
  | .ok (r1, routed) =>
    .ok ((if routed.isSome then 1 else 0) +
         (if (eventLoopStart r1 b).2 then 1 else 0))

/-- Number of `_on_connect` executions triggered when the scheduler starts
first and the single connection-established event arrives afterwards. -/
def connectRunsStartFirst (r : Registry) (b : Bot) : Except PyErr Nat :=
  match onConnection (eventLoopStart r b).1 b.iface with
  | .error e => .error e
  | .ok (_, routed) =>
    .ok ((if (eventLoopStart r b).2 then 1 else 0) +
         (if routed.isSome then 1 else 0))

/-- Constructing `MeshtasticNode(bottastic, num)`: every construction
allocates a fresh object identity (the allocator counter is threaded
through). -/
def mkMeshtasticNode (alloc : Nat) (bot num : Nat) : PyMeshtasticNode × Nat :=
  (⟨alloc, bot, num⟩, alloc + 1)

/-! ## Helper lemmas -/

/-- When receive-echo is off, or the packet carries `fromId`, the echo lookup
of `_handle_on_receive` succeeds. -/
theorem echo_lookup_ok {b : Bot} {p : Packet}
    (h : b.echo_received = false ∨ p.fromId.isSome = true) :
    ∃ s, (if b.echo_received then echoFromId p else Except.ok "") = .ok s := by
  rcases h with h | h
  · exact ⟨"", by simp [h]⟩
  · rcases Option.isSome_iff_exists.mp h with ⟨s, hs⟩
    cases hb : b.echo_received <;> simp [echoFromId, hs]

/-- Under the same proviso, `_handle_on_receive` returns normally. -/
theorem handleOnReceive_ok {b : Bot} {p : Packet}
    (h : b.echo_received = false ∨ p.fromId.isSome = true) :
    ∃ d, handleOnReceive b p = .ok d := by
  obtain ⟨s, hs⟩ := echo_lookup_ok h
  cases hl : b.loop with
  | false => exact ⟨none, by simp [handleOnReceive, hl]⟩
  | true =>
    cases hmn : b.my_node with
    | none => exact ⟨none, by simp [handleOnReceive, hl, hmn]⟩
    | some mn =>
      cases htx : p.decodedText with
      | none => exact ⟨none, by simp [handleOnReceive, hl, hmn, htx]⟩
      | some text =>
        by_cases hto : p.toAddr = BROADCAST_NUM
        · exact ⟨some (.broadcast p.fromAddr text),
            by simp [handleOnReceive, hl, hmn, htx, hto, hs]⟩
        · by_cases hto2 : p.toAddr = mn.num
          · have hto' : ¬mn.num = BROADCAST_NUM := hto2 ▸ hto
            exact ⟨some (.direct p.fromAddr text),
              by simp [handleOnReceive, hl, hmn, htx, hto, hto', hto2, hs]⟩
          · exact ⟨none, by simp [handleOnReceive, hl, hmn, htx, hto, hto2]⟩

/-- `on_receive` returns normally when no matched bot's echo lookup can
fail. -/
theorem onReceive_ok {bots : List Bot} {iface : Nat} {p : Packet}
    (h : ∀ b ∈ bots, b.echo_received = false ∨ p.fromId.isSome = true) :
    ∃ ds, onReceive bots iface p = .ok ds := by
  induction bots with
  | nil => exact ⟨[], rfl⟩
  | cons b rest ih =>
    obtain ⟨ds, hds⟩ := ih (fun x hx => h x (List.mem_cons_of_mem _ hx))
    by_cases hbi : b.iface = iface
    · obtain ⟨d, hd⟩ := handleOnReceive_ok (h b (List.mem_cons_self _ _))
      exact ⟨(d.map (fun x => (b.id, x))).toList ++ ds,
        by simp [onReceive, hbi, hd, hds]⟩
    · exact ⟨ds, by simp [onReceive, hbi, hds]⟩

/-- `on_connection` returns normally on every input: the only raise inside
`_handle_on_connection` is guarded by the very condition the scan checked. -/
theorem onConnection_ok (r : Registry) (iface : Nat) :
    ∃ x, onConnection r iface = .ok x := by
  unfold onConnection
  cases hf : r.registered.find? (fun b => b.iface == iface && b.loop) with
  | none => exact ⟨_, rfl⟩
  | some b =>
    have hp := List.find?_some hf
    have hloop : b.loop = true := by
      simp only [Bool.and_eq_true, beq_iff_eq] at hp
      exact hp.2
    exact ⟨(r, some b), by simp [handleOnConnection, hloop]⟩

/-- The registry scan of `on_connection` finds nothing when the only bot bound
to the interface has no loop yet. -/
theorem find_none_of_noLoop {l : List Bot} {b : Bot} (hl : b.loop = false)
    (huniq : ∀ b' ∈ l, b'.iface = b.iface → b' = b) :
    l.find? (fun x => x.iface == b.iface && x.loop) = none := by
  rw [List.find?_eq_none]
  intro x hx
  by_cases hxf : x.iface = b.iface
  · have hxb : x = b := huniq x hx hxf
    simp [hxb, hl]
  · simp [hxf]

/-- After the bot's loop is recorded, the registry scan of `on_connection`
finds exactly that bot (with its loop now set). -/
theorem find_setLoop {l : List Bot} {b : Bot} (hb : b ∈ l)
    (huniq : ∀ b' ∈ l, b'.iface = b.iface → b' = b)
    (hid : ∀ b' ∈ l, b'.id = b.id → b' = b) :
    (setLoop l b.id).find? (fun x => x.iface == b.iface && x.loop)
      = some { b with loop := true } := by
  induction l with
  | nil => cases hb
  | cons c rest ih =>
    by_cases hc : c.id = b.id
    · have hcb : c = b := hid c (List.mem_cons_self _ _) hc
      subst hcb
      simp [setLoop, List.find?]
    · have hpc : (c.iface == b.iface && c.loop) = false := by
        by_cases hcf : c.iface = b.iface
        · exact absurd (huniq c (List.mem_cons_self _ _) hcf)
            (fun h => hc (by rw [h]))
        · simp [hcf]
      have hb' : b ∈ rest := by
        rcases List.mem_cons.mp hb with h | h
        · exact absurd h.symm (fun h2 => hc (by rw [h2]))
        · exact h
      have hmap : setLoop (c :: rest) b.id = c :: setLoop rest b.id := by
        simp [setLoop, hc]
      rw [hmap, List.find?_cons, hpc]
      exact ih hb' (fun b' h hf => huniq b' (List.mem_cons_of_mem _ h) hf)
        (fun b' h hf => hid b' (List.mem_cons_of_mem _ h) hf)

/-- `list.remove` on the registered list succeeds and removes the single
occurrence of the bot. -/
theorem removeBot_countP {l : List Bot} {bid : Nat}
    (h : l.countP (fun x => x.id == bid) = 1) :
    ∃ l', removeBot l bid = .ok l' ∧
      l'.countP (fun x => x.id == bid) = 0 := by
  induction l with
  | nil => simp at h
  | cons c rest ih =>
    by_cases hc : c.id = bid
    · have h0 : rest.countP (fun x => x.id == bid) = 0 := by
        simp [List.countP_cons, hc] at h
        exact List.countP_eq_zero.mpr (by intro a ha; simpa using h a ha)
      exact ⟨rest, by simp [removeBot, hc], h0⟩
    · have h1 : rest.countP (fun x => x.id == bid) = 1 := by
        simp [List.countP_cons, hc] at h
        exact h
      obtain ⟨l', hl', h0⟩ := ih h1
      exact ⟨c :: l', by simp [removeBot, hc, hl'],
        by simp [List.countP_cons, hc, h0]⟩

/-! ## Claim theorems -/

/-- C1: for a registered bot whose self-identity is populated and a packet
carrying decoded text, `_handle_on_receive` schedules the broadcast handler
(and never the direct one) when the packet is addressed to the broadcast
sentinel, the direct handler (and never the broadcast one) when it is
addressed to the bot's own node number, and no handler otherwise.  The bot's
node number is assumed distinct from the broadcast sentinel (the sentinel is
reserved), and the echo lookup is assumed not to interfere (echo off, or the
packet carries `fromId`, which decoded meshtastic packets do). -/
theorem C1_routing_by_to_address (b : Bot) (mn : MyNode) (p : Packet)
    (txt : String) (hl : b.loop = true) (hn : b.my_node = some mn)
    (ht : p.decodedText = some txt) (hsent : mn.num ≠ BROADCAST_NUM)
    (hecho : b.echo_received = false ∨ p.fromId.isSome = true) :
    (p.toAddr = BROADCAST_NUM →
        handleOnReceive b p = .ok (some (.broadcast p.fromAddr txt))) ∧
    (p.toAddr = mn.num →
        handleOnReceive b p = .ok (some (.direct p.fromAddr txt))) ∧
    (p.toAddr ≠ BROADCAST_NUM → p.toAddr ≠ mn.num →
        handleOnReceive b p = .ok none) := by
  obtain ⟨s, hs⟩ := echo_lookup_ok hecho
  refine ⟨fun hto => ?_, fun hto => ?_, fun h1 h2 => ?_⟩
  · simp [handleOnReceive, hl, hn, ht, hto, hs]
  · have h1 : ¬p.toAddr = BROADCAST_NUM := by
      rw [hto]; exact hsent
    simp [handleOnReceive, hl, hn, ht, h1, hto, hsent, hs]
  · simp [handleOnReceive, hl, hn, ht, h1, h2]

/-- Witness for C1 at a concrete bot (node number 42) and the three packet
addresses of the spec's scenarios. -/
theorem C1_routing_witness :
    (handleOnReceive ⟨1, 10, false, false, true, some ⟨42⟩, some (), true⟩
        ⟨BROADCAST_NUM, 7, some "!07", some ⟨some "ping"⟩⟩
      = .ok (some (.broadcast 7 "ping"))) ∧
    (handleOnReceive ⟨1, 10, false, false, true, some ⟨42⟩, some (), true⟩
        ⟨42, 7, some "!07", some ⟨some "ping"⟩⟩
      = .ok (some (.direct 7 "ping"))) ∧
    (handleOnReceive ⟨1, 10, false, false, true, some ⟨42⟩, some (), true⟩
        ⟨99, 7, some "!07", some ⟨some "ping"⟩⟩
      = .ok none) :=
  ⟨(C1_routing_by_to_address ⟨1, 10, false, false, true, some ⟨42⟩, some (), true⟩
      ⟨42⟩ ⟨BROADCAST_NUM, 7, some "!07", some ⟨some "ping"⟩⟩ "ping"
      rfl rfl rfl (by decide) (Or.inl rfl)).1 rfl,
   (C1_routing_by_to_address ⟨1, 10, false, false, true, some ⟨42⟩, some (), true⟩
      ⟨42⟩ ⟨42, 7, some "!07", some ⟨some "ping"⟩⟩ "ping"
      rfl rfl rfl (by decide) (Or.inl rfl)).2.1 rfl,
   (C1_routing_by_to_address ⟨1, 10, false, false, true, some ⟨42⟩, some (), true⟩
      ⟨42⟩ ⟨99, 7, some "!07", some ⟨some "ping"⟩⟩ "ping"
      rfl rfl rfl (by decide) (Or.inl rfl)).2.2 (by decide) (by decide)⟩

/-- C2 (code bug): with node 7 present in the directory but its `user` record
lacking a `publicKey`, `MeshtasticNode.send_message` raises `KeyError` from
the `key` property — not `NoEncryptionKey` — under both values of
`require_encryption`, and performs no transport send; and with an empty
`publicKey` and `require_encryption=False`, the single send is tagged
`pkiEncrypted=True` (because `key is not None` always holds for the decoded
bytes), not unencrypted. -/
theorem C2_missing_key_behaviour :
    (node_send_message ⟨some [(7, ⟨some ⟨some "!abc", none, none, none⟩⟩)]⟩
        7 "pong" true false = .error (.keyError "publicKey")) ∧
    (node_send_message ⟨some [(7, ⟨some ⟨some "!abc", none, none, none⟩⟩)]⟩
        7 "pong" false false = .error (.keyError "publicKey")) ∧
    (node_send_message ⟨some [(7, ⟨some ⟨some "!abc", some "", none, none⟩⟩)]⟩
        7 "pong" false false
      = .ok [{ payload := "pong", dest := some 7, wantAck := false,
               wantResponse := false, hasOnResponse := false,
               pkiEncrypted := true, publicKey := some [] }]) :=
  ⟨rfl, rfl, rfl⟩

/-- C3 (counterexample): the state reached by `_on_connect` after both
identity fetches but before `on_initialized` has completed is observable by
the receive callback, and a broadcast text packet arriving there is
dispatched to the broadcast handler — refuting "no packet is dispatched to
any handler before `on_initialized` has run to completion". -/
theorem C3_counterexample :
    ({ id := 1, iface := 10, echo_sent := false, echo_received := false,
       loop := true, my_node := some ⟨42⟩, my_user := some (),
       onInitializedDone := false : Bot } ∈
        onConnectMidStates ⟨1, 10, false, false, true, none, none, false⟩ ⟨42⟩) ∧
    ({ id := 1, iface := 10, echo_sent := false, echo_received := false,
       loop := true, my_node := some ⟨42⟩, my_user := some (),
       onInitializedDone := false : Bot }.onInitializedDone = false) ∧
    (handleOnReceive
        { id := 1, iface := 10, echo_sent := false, echo_received := false,
          loop := true, my_node := some ⟨42⟩, my_user := some (),
          onInitializedDone := false }
        ⟨BROADCAST_NUM, 7, some "!07", some ⟨some "ping"⟩⟩
      = .ok (some (.broadcast 7 "ping"))) := by
  refine ⟨?_, rfl, ?_⟩
  · simp [onConnectMidStates]
  · rfl

/-- C3 (amended): no packet is dispatched to any handler before the bot's
self-identity (`my_node`) is populated and its loop is set; before that point
packet handling is a silent no-op (`ok none`), never a failure.  (Once
`my_node` is populated — which `_on_connect` does before invoking
`on_initialized` — dispatch is possible even while `on_initialized` is still
running.) -/
theorem C3_silent_before_identity (b : Bot) (p : Packet)
    (h : b.loop = false ∨ b.my_node = none) :
    handleOnReceive b p = .ok none := by
  rcases h with h | h
  · simp [handleOnReceive, h]
  · cases hl : b.loop <;> simp [handleOnReceive, h, hl]

/-- Witness for the amended C3: a bot whose identity is not yet populated
silently ignores a broadcast text packet. -/
theorem C3_silent_witness :
    handleOnReceive ⟨1, 10, false, false, true, none, none, false⟩
        ⟨BROADCAST_NUM, 7, some "!07", some ⟨some "ping"⟩⟩ = .ok none :=
  C3_silent_before_identity _ _ (Or.inr rfl)

/-- C5 (counterexample): with the connection's node directory absent
(`nodesByNum` is `None`), every Node Handle attribute lookup raises
`ValueError` — refuting "returns an absent value and never raises". -/
theorem C5_counterexample :
    (MeshtasticNode.idLookup ⟨none⟩ 7 = .error .valueError) ∧
    (MeshtasticNode.shortName ⟨none⟩ 7 = .error .valueError) ∧
    (MeshtasticNode.longName ⟨none⟩ 7 = .error .valueError) ∧
    (MeshtasticNode.keyLookup ⟨none⟩ 7 = .error .valueError) :=
  ⟨rfl, rfl, rfl, rfl⟩

/-- C5 (amended): when the node directory is missing or empty, each of the
four attribute lookups raises `ValueError`; when the directory is non-empty
but has no entry for the node, each raises `KeyError` — they never return an
absent value. -/
theorem C5_lookups_raise (iface : Interface) (num : Nat) :
    (iface.nodesTruthy = false →
      MeshtasticNode.idLookup iface num = .error .valueError ∧
      MeshtasticNode.shortName iface num = .error .valueError ∧
      MeshtasticNode.longName iface num = .error .valueError ∧
      MeshtasticNode.keyLookup iface num = .error .valueError) ∧
    (∀ d, iface.nodesByNum = some d →
      d.find? (fun e => e.1 == num) = none → d.isEmpty = false →
      MeshtasticNode.idLookup iface num = .error (.keyError (toString num)) ∧
      MeshtasticNode.shortName iface num = .error (.keyError (toString num)) ∧
      MeshtasticNode.longName iface num = .error (.keyError (toString num)) ∧
      MeshtasticNode.keyLookup iface num = .error (.keyError (toString num))) := by
  constructor
  · intro h
    have hn : node_info iface num = .error .valueError := by
      simp [node_info, h]
    exact ⟨by simp [MeshtasticNode.idLookup, userField, hn],
      by simp [MeshtasticNode.shortName, userField, hn],
      by simp [MeshtasticNode.longName, userField, hn],
      by simp [MeshtasticNode.keyLookup, userField, hn]⟩
  · intro d hd hf he
    have hn : node_info iface num = .error (.keyError (toString num)) := by
      simp [node_info, Interface.nodesTruthy, hd, he, dictGet, hf]
    exact ⟨by simp [MeshtasticNode.idLookup, userField, hn],
      by simp [MeshtasticNode.shortName, userField, hn],
      by simp [MeshtasticNode.longName, userField, hn],
      by simp [MeshtasticNode.keyLookup, userField, hn]⟩

/-- Witness for the amended C5 at a directory holding only node 3, looked up
for node 7. -/
theorem C5_lookups_witness :
    (MeshtasticNode.idLookup ⟨some []⟩ 7 = .error .valueError) ∧
    (MeshtasticNode.idLookup ⟨some [(3, ⟨none⟩)]⟩ 7
      = .error (.keyError "7")) :=
  ⟨((C5_lookups_raise ⟨some []⟩ 7).1 rfl).1,
   ((C5_lookups_raise ⟨some [(3, ⟨none⟩)]⟩ 7).2 [(3, ⟨none⟩)] rfl
      (by decide) rfl).1⟩

/-- C9 (counterexample): two Node Handles constructed separately for the same
(connection, numeric address) pair carry equal fields yet compare unequal,
because `MeshtasticNode` defines no `__eq__` and Python falls back to object
identity — refuting "two handles constructed separately for the same pair are
equal". -/
theorem C9_counterexample :
    ((mkMeshtasticNode 0 5 7).1.bottastic
        = (mkMeshtasticNode (mkMeshtasticNode 0 5 7).2 5 7).1.bottastic) ∧
    ((mkMeshtasticNode 0 5 7).1.num
        = (mkMeshtasticNode (mkMeshtasticNode 0 5 7).2 5 7).1.num) ∧
    (pyEq (mkMeshtasticNode 0 5 7).1
        (mkMeshtasticNode (mkMeshtasticNode 0 5 7).2 5 7).1 = false) := by
  decide

/-- C9 (amended): equality of Node Handles is Python object identity — two
handles are equal exactly when they are the same object, regardless of their
(connection, numeric address) fields. -/
theorem C9_eq_is_object_identity (a b : PyMeshtasticNode) :
    pyEq a b = true ↔ a.objId = b.objId := by
  simp [pyEq]

/-- C6 (counterexample): a registered, ready bot with receive-echo enabled,
handed a packet that carries `from` and `to` (and decoded text) but no
`fromId`, makes `on_receive` raise `KeyError("fromId")` out of the echo
f-string — the exception crosses the notification boundary and the handler is
never scheduled, refuting "returns normally and never propagates an
exception; echo-logging failure never affects message handling". -/
theorem C6_counterexample :
    onReceive [⟨1, 10, false, true, true, some ⟨42⟩, some (), true⟩] 10
        ⟨BROADCAST_NUM, 7, none, some ⟨some "hi"⟩⟩
      = .error (.keyError "fromId") := rfl

/-- C6 (amended): `on_connection_established` always returns normally, and
`on_packet_received` returns normally provided every bot bound to the
connection either has receive-echo disabled or the packet carries a `fromId`
key; when receive-echo is enabled and `fromId` is absent, the echo lookup's
`KeyError` propagates to the notification source. -/
theorem C6_entry_points_return_normally (r : Registry) (iface : Nat)
    (bots : List Bot) (p : Packet)
    (hecho : ∀ b ∈ bots, b.echo_received = false ∨ p.fromId.isSome = true) :
    (∃ x, onConnection r iface = .ok x) ∧
    (∃ ds, onReceive bots iface p = .ok ds) :=
  ⟨onConnection_ok r iface, onReceive_ok hecho⟩

/-- Witness for the amended C6: an echo-enabled bot with a packet that does
carry `fromId`. -/
theorem C6_entry_points_witness :
    (∃ x, onConnection ⟨[⟨1, 10, false, false, false, none, none, false⟩], []⟩
        10 = .ok x) ∧
    (∃ ds, onReceive [⟨1, 10, false, true, true, some ⟨42⟩, some (), true⟩] 10
        ⟨BROADCAST_NUM, 7, some "!07", some ⟨some "hi"⟩⟩ = .ok ds) :=
  C6_entry_points_return_normally _ 10 _ _ (fun _ _ => Or.inr rfl)

/-- C8 (counterexample): with two registered instances bound to the same
connection, `on_receive` forwards the packet to both of them (the scan has no
early exit), refuting "forwards the packet to exactly one of them: the first
matching instance". -/
theorem C8_counterexample :
    onReceive [⟨1, 10, false, false, true, some ⟨42⟩, some (), true⟩,
               ⟨2, 10, false, false, true, some ⟨43⟩, some (), true⟩] 10
        ⟨BROADCAST_NUM, 7, some "!07", some ⟨some "ping"⟩⟩
      = .ok [(1, .broadcast 7 "ping"), (2, .broadcast 7 "ping")] := rfl

/-- C8 (amended): `on_receive` forwards the packet to every registered
instance bound to the connection, in registration order, each applying its
own packet filter (provided no matched bot's handling raises). -/
theorem C8_forwards_to_all (bots : List Bot) (iface : Nat) (p : Packet)
    (hok : ∀ b ∈ bots, b.iface = iface → ∃ d, handleOnReceive b p = .ok d) :
    onReceive bots iface p = .ok (allMatchedDispatches bots iface p) := by
  induction bots with
  | nil => rfl
  | cons b rest ih =>
    have ih' := ih (fun x hx hxi => hok x (List.mem_cons_of_mem _ hx) hxi)
    by_cases hbi : b.iface = iface
    · obtain ⟨d, hd⟩ := hok b (List.mem_cons_self _ _) hbi
      cases d with
      | none => simp [onReceive, allMatchedDispatches, hbi, hd, ih']
      | some x => simp [onReceive, allMatchedDispatches, hbi, hd, ih']
    · simp [onReceive, allMatchedDispatches, hbi, ih']

/-- Witness for the amended C8: two bots on one connection both receive a
broadcast, and the forwarded list evaluates as stated. -/
theorem C8_forwards_witness :
    (onReceive [⟨1, 5, false, false, true, some ⟨42⟩, some (), true⟩,
                ⟨2, 5, false, false, true, some ⟨43⟩, some (), true⟩] 5
        ⟨42, 7, some "!07", some ⟨some "hello"⟩⟩
      = .ok (allMatchedDispatches
          [⟨1, 5, false, false, true, some ⟨42⟩, some (), true⟩,
           ⟨2, 5, false, false, true, some ⟨43⟩, some (), true⟩] 5
          ⟨42, 7, some "!07", some ⟨some "hello"⟩⟩)) ∧
    (allMatchedDispatches
        [⟨1, 5, false, false, true, some ⟨42⟩, some (), true⟩,
         ⟨2, 5, false, false, true, some ⟨43⟩, some (), true⟩] 5
        ⟨42, 7, some "!07", some ⟨some "hello"⟩⟩
      = [(1, .direct 7 "hello")]) :=
  ⟨C8_forwards_to_all _ 5 _
      (fun _ _ _ => handleOnReceive_ok (Or.inr rfl)), rfl⟩

/-- C10: `close` records exactly one interface-close effect, removes the
instance from the registered list, and leaves the pending-connections set
unchanged, so a readiness signal deferred in `_connected_bots` survives the
bot's close. -/
theorem C10_close_preserves_pending (r : Registry) (b : Bot)
    (h : r.registered.countP (fun x => x.id == b.id) = 1) :
    ((close r b).1 = [CloseEffect.interfaceClosed b.iface]) ∧
    (∃ l, (close r b).2 = .ok ⟨l, r.pending⟩ ∧
      l.countP (fun x => x.id == b.id) = 0) := by
  obtain ⟨l, hl, h0⟩ := removeBot_countP h
  exact ⟨rfl, l, by simp [close, hl], h0⟩

/-- Witness for C10: closing the only registered bot keeps the pending
connection 77. -/
theorem C10_close_witness :
    ((close ⟨[⟨1, 10, false, false, true, some ⟨42⟩, some (), true⟩], [77]⟩
        ⟨1, 10, false, false, true, some ⟨42⟩, some (), true⟩).1
      = [CloseEffect.interfaceClosed 10]) ∧
    (∃ l, (close ⟨[⟨1, 10, false, false, true, some ⟨42⟩, some (), true⟩], [77]⟩
        ⟨1, 10, false, false, true, some ⟨42⟩, some (), true⟩).2
        = .ok ⟨l, [77]⟩ ∧
      l.countP (fun x => x.id == 1) = 0) :=
  C10_close_preserves_pending
    ⟨[⟨1, 10, false, false, true, some ⟨42⟩, some (), true⟩], [77]⟩
    ⟨1, 10, false, false, true, some ⟨42⟩, some (), true⟩ (by decide)

/-- C4: for a bot uniquely bound to its connection, a single
connection-established event leads to the connect sequence running exactly
once.  If the event arrives before the scheduler starts (`loop` unset),
`on_connection` routes nothing and appends the interface to the pending set,
and the scheduler start then claims it: the connect sequence runs, and the
interface is removed from pending.  If the scheduler starts first, its start
runs no connect sequence (nothing pending), and the event then routes
directly to the bot with the registry — in particular the pending set —
unchanged. -/
theorem C4_single_event_once (r : Registry) (b : Bot)
    (hb : b ∈ r.registered)
    (huniq : ∀ b' ∈ r.registered, b'.iface = b.iface → b' = b)
    (hid : ∀ b' ∈ r.registered, b'.id = b.id → b' = b)
    (hp : b.iface ∉ r.pending) :
    (b.loop = false →
      onConnection r b.iface
          = .ok (⟨r.registered, r.pending ++ [b.iface]⟩, none) ∧
      (eventLoopStart ⟨r.registered, r.pending ++ [b.iface]⟩ b).2 = true ∧
      (eventLoopStart ⟨r.registered, r.pending ++ [b.iface]⟩ b).1.pending
          = r.pending) ∧
    ((eventLoopStart r b).2 = false ∧
      onConnection (eventLoopStart r b).1 b.iface
        = .ok ((eventLoopStart r b).1, some { b with loop := true })) := by
  constructor
  · intro hl
    have hfind := find_none_of_noLoop hl huniq
    have hmem : b.iface ∈ r.pending ++ [b.iface] := by simp
    refine ⟨by simp [onConnection, hfind], by simp [eventLoopStart, hmem], ?_⟩
    simp only [eventLoopStart, hmem, if_true]
    rw [List.erase_append_right _ hp]
    simp
  · have h1 : eventLoopStart r b = (⟨setLoop r.registered b.id, r.pending⟩, false) := by
      simp [eventLoopStart, hp]
    have hfind := find_setLoop hb huniq hid
    rw [h1]
    exact ⟨rfl, by simp [onConnection, hfind, handleOnConnection]⟩

/-- Witness for C4 with a single freshly-registered bot on connection 10 and
an empty pending set. -/
theorem C4_single_event_witness :
    (onConnection ⟨[⟨1, 10, false, false, false, none, none, false⟩], []⟩ 10
        = .ok (⟨[⟨1, 10, false, false, false, none, none, false⟩],
                 [] ++ [10]⟩, none) ∧
      (eventLoopStart ⟨[⟨1, 10, false, false, false, none, none, false⟩],
                 [] ++ [10]⟩
          ⟨1, 10, false, false, false, none, none, false⟩).2 = true ∧
      (eventLoopStart ⟨[⟨1, 10, false, false, false, none, none, false⟩],
                 [] ++ [10]⟩
          ⟨1, 10, false, false, false, none, none, false⟩).1.pending = []) ∧
    ((eventLoopStart ⟨[⟨1, 10, false, false, false, none, none, false⟩], []⟩
        ⟨1, 10, false, false, false, none, none, false⟩).2 = false ∧
      onConnection
          (eventLoopStart ⟨[⟨1, 10, false, false, false, none, none, false⟩], []⟩
            ⟨1, 10, false, false, false, none, none, false⟩).1 10
        = .ok ((eventLoopStart
            ⟨[⟨1, 10, false, false, false, none, none, false⟩], []⟩
            ⟨1, 10, false, false, false, none, none, false⟩).1,
          some ⟨1, 10, false, false, true, none, none, false⟩)) :=
  ⟨(C4_single_event_once ⟨[⟨1, 10, false, false, false, none, none, false⟩], []⟩
      ⟨1, 10, false, false, false, none, none, false⟩
      (by decide) (by decide) (by decide) (by decide)).1 rfl,
   (C4_single_event_once ⟨[⟨1, 10, false, false, false, none, none, false⟩], []⟩
      ⟨1, 10, false, false, false, none, none, false⟩
      (by decide) (by decide) (by decide) (by decide)).2⟩

/-- C7: the connect sequence fetches the bot's own node info and then its own
user info through the Bridge, and only then — with both identity fields
populated — invokes the `on_initialized` hook, which occurs exactly once in
the sequence; and for a bot uniquely bound to its connection, a single
connection-established event triggers the sequence exactly once, whether the
event precedes the scheduler start or follows it. -/
theorem C7_connect_sequence (r : Registry) (b : Bot) (mn : MyNode)
    (hb : b ∈ r.registered)
    (huniq : ∀ b' ∈ r.registered, b'.iface = b.iface → b' = b)
    (hid : ∀ b' ∈ r.registered, b'.id = b.id → b' = b)
    (hp : b.iface ∉ r.pending) :
    ((onConnectRun b mn).map Prod.fst
        = [ConnectStep.bridgeGetMyNodeInfo, ConnectStep.bridgeGetMyUser,
           ConnectStep.invokeOnInitialized]) ∧
    (∀ s, (ConnectStep.invokeOnInitialized, s) ∈ onConnectRun b mn →
        s.my_node = some mn ∧ s.my_user = some ()) ∧
    (b.loop = false → connectRunsEventFirst r b = .ok 1) ∧
    (connectRunsStartFirst r b = .ok 1) := by
  refine ⟨rfl, ?_, ?_, ?_⟩
  · intro s hs
    simp [onConnectRun] at hs
    subst hs
    exact ⟨rfl, rfl⟩
  · intro hl
    have hfind := find_none_of_noLoop hl huniq
    have hmem : b.iface ∈ r.pending ++ [b.iface] := by simp
    simp [connectRunsEventFirst, onConnection, hfind, eventLoopStart, hmem]
  · have h1 : eventLoopStart r b = (⟨setLoop r.registered b.id, r.pending⟩, false) := by
      simp [eventLoopStart, hp]
    have hfind := find_setLoop hb huniq hid
    simp [connectRunsStartFirst, h1, onConnection, hfind, handleOnConnection]

/-- Witness for C7 with a single freshly-registered bot on connection 10. -/
theorem C7_connect_sequence_witness :
    ((onConnectRun ⟨1, 10, false, false, false, none, none, false⟩ ⟨42⟩).map
        Prod.fst
      = [ConnectStep.bridgeGetMyNodeInfo, ConnectStep.bridgeGetMyUser,
         ConnectStep.invokeOnInitialized]) ∧
    (∀ s, (ConnectStep.invokeOnInitialized, s) ∈
        onConnectRun ⟨1, 10, false, false, false, none, none, false⟩ ⟨42⟩ →
        s.my_node = some ⟨42⟩ ∧ s.my_user = some ()) ∧
    (connectRunsEventFirst
        ⟨[⟨1, 10, false, false, false, none, none, false⟩], []⟩
        ⟨1, 10, false, false, false, none, none, false⟩ = .ok 1) ∧
    (connectRunsStartFirst
        ⟨[⟨1, 10, false, false, false, none, none, false⟩], []⟩
        ⟨1, 10, false, false, false, none, none, false⟩ = .ok 1) :=
  ⟨(C7_connect_sequence ⟨[⟨1, 10, false, false, false, none, none, false⟩], []⟩
      ⟨1, 10, false, false, false, none, none, false⟩ ⟨42⟩
      (by decide) (by decide) (by decide) (by decide)).1,
   (C7_connect_sequence ⟨[⟨1, 10, false, false, false, none, none, false⟩], []⟩
      ⟨1, 10, false, false, false, none, none, false⟩ ⟨42⟩
      (by decide) (by decide) (by decide) (by decide)).2.1,
   (C7_connect_sequence ⟨[⟨1, 10, false, false, false, none, none, false⟩], []⟩
      ⟨1, 10, false, false, false, none, none, false⟩ ⟨42⟩
      (by decide) (by decide) (by decide) (by decide)).2.2.1 rfl,
   (C7_connect_sequence ⟨[⟨1, 10, false, false, false, none, none, false⟩], []⟩
      ⟨1, 10, false, false, false, none, none, false⟩ ⟨42⟩
      (by decide) (by decide) (by decide) (by decide)).2.2.2⟩

end Bottastic
